import Mathlib

/-!
# Verification of the VacunasECPro entitlement backend (`src/server.js`)

Shallow embedding of the reconciliation core of `server.js`:

* time is modelled as milliseconds since the Unix epoch (`Nat`); an ISO-8601
  instant string and its epoch-milliseconds value are in bijection for the
  instants the code manipulates, so `new Date(ms).toISOString()` /
  `Date.parse(iso)` round-trips are identities in the model;
* Firestore collections are modelled as total functions
  `String → Option doc`; a `ref.set(obj, {merge:true})` whose object literal
  lists every modelled field of the document is an exact replacement of those
  fields, which is how every write in `server.js` is shaped, so writes are
  modelled as whole-document replacement at the key;
* the server-assigned `updatedAt` sentinel (`FieldValue.serverTimestamp()`)
  is not a value the code ever reads back and is omitted from the documents;
* JavaScript truthiness on the string/`null`/`undefined` values that flow
  through the code is modelled on `Option String`: `none` (null/undefined)
  and `some ""` are falsy, every other `some s` is truthy.  On the modelled
  timestamp fields (`Option Nat`) only `null`/`undefined` occur as falsy
  values in the code (they hold ISO strings there), so `x || y` is
  `Option.orElse`;
* the external PayPal calls (`getSubscriptionFromPayPal`,
  `verifyWebhookSignature`) are inputs of the handler functions: the fetched
  subscription snapshot is a parameter, and the signature-verification
  outcome is an `Except` value (`.error` models the promise rejecting, which
  the handler's `catch` turns into a 500 response).
-/

namespace VacunasEcPro

/-- JS truthiness of a nullable string: `null`/`undefined` (`none`) and the
empty string are falsy. -/
def sTruthy : Option String → Bool
  | none => false
  | some s => !(s == "")

/-- JS `a || b || null` on nullable strings: the first truthy operand, else
`null`. -/
def jsOrS (a b : Option String) : Option String :=
  if sTruthy a then a else if sTruthy b then b else none

/-- JS `a || b` on the modelled nullable-timestamp fields, where the only
falsy values occurring are `null`/`undefined`. -/
def jsOrT (a b : Option Nat) : Option Nat :=
  match a with
  | some v => some v
  | none => b

/-- `String(x || "")` for a nullable string field. -/
def jsStr (a : Option String) : String :=
  match a with
  | none => ""
  | some s => s

/-- `String.prototype.toLowerCase()` on one character, for the ASCII data
this backend handles (emails, plan names, statuses): uppercase ASCII
letters map to lowercase, everything else is unchanged.  (Defined
structurally so that concrete inputs evaluate inside the kernel.) -/
def jsCharLower (c : Char) : Char :=
  if 'A' ≤ c ∧ c ≤ 'Z' then Char.ofNat (c.toNat + 32) else c

/-- `s.toLowerCase()`. -/
def jsToLower (s : String) : String := String.mk (s.toList.map jsCharLower)

/-- The whitespace characters `String.prototype.trim()` strips, restricted
to those occurring in this backend's data. -/
def jsIsWs (c : Char) : Bool := c = ' ' || c = '\t' || c = '\n' || c = '\r'

/-- `s.trim()`: strip leading and trailing whitespace. -/
def jsTrim (s : String) : String :=
  String.mk (((s.toList.dropWhile jsIsWs).reverse.dropWhile jsIsWs).reverse)

/-- Milliseconds in `days` days: `days * 24 * 60 * 60 * 1000`. -/
def daysToMs (days : Nat) : Nat := days * 24 * 60 * 60 * 1000

/-- `daysFromNowToIso(days)` (server.js:41-44): the instant
`Date.now() + days·24h`, as epoch milliseconds. -/
def daysFromNowToIso (now days : Nat) : Nat := now + daysToMs days

/-- `computeExpiresAtIso(plan)` (server.js:46-51): lowercases the plan
(`(plan || "").toLowerCase()`), maps `yearly` to now+365d, `monthly` to
now+30d, anything else to `null`. -/
def computeExpiresAtIso (plan : Option String) (now : Nat) : Option Nat :=
  let p := jsToLower (jsStr plan)
  if p == "yearly" then some (daysFromNowToIso now 365)
  else if p == "monthly" then some (daysFromNowToIso now 30)
  else none

/-- `addGraceMs(iso, graceDays)` (server.js:54-62): `null` stays `null`;
otherwise `Date.parse(iso) + graceDays·24h` re-serialized.  For the valid
instants produced by this code `Date.parse` never throws, so the catch
branch is unreachable in the model. -/
def addGraceMs (iso : Option Nat) (graceDays : Nat) : Option Nat :=
  match iso with
  | none => none
  | some ms => some (ms + daysToMs graceDays)

/-- `ACTIVE_STATUSES` (server.js:26). -/
def ACTIVE_STATUSES : List String := ["ACTIVE", "APPROVAL_PENDING", "APPROVED"]

/-- `ACTIVE_STATUSES.includes(status)`, the derivation used at
server.js:394 (validation) and server.js:463 (webhook). -/
def isActiveForApp (status : String) : Bool :=
  ACTIVE_STATUSES.contains status

/-- The subscription snapshot fetched from PayPal
(`getSubscriptionFromPayPal` result), projected onto the fields the code
reads: `id`, `status`, `plan_id`, `start_time`,
`billing_info.next_billing_time`, `billing_info.last_payment?.time`. -/
structure Subscription where
  id : String
  status : String
  plan_id : Option String
  start_time : Option Nat
  next_billing_time : Option Nat
  last_payment_time : Option Nat
  deriving Repr, DecidableEq

/-- A document of the `subscriptionsById` collection (server.js:156-169). -/
structure SubRecord where
  subscriptionId : String
  email : Option String
  status : String
  planId : Option String
  startTime : Option Nat
  nextBillingTime : Option Nat
  lastPaymentTime : Option Nat
  lastWebhookEvent : Option String
  deriving Repr, DecidableEq

/-- A document of the `userSubscriptions` secondary index
(server.js:174-188 and server.js:343-357). -/
structure UserSubDoc where
  email : String
  userId : String
  subscriptionId : String
  status : String
  planId : Option String
  startTime : Option Nat
  nextBillingTime : Option Nat
  lastPaymentTime : Option Nat
  lastWebhookEvent : Option String
  deriving Repr, DecidableEq

/-- A document of the `users` collection, the per-email entitlement
(server.js:227-246). -/
structure UserDoc where
  email : String
  proActive : Bool
  plan : Option String
  source : String
  subscriptionStatus : Option String
  subscriptionId : Option String
  planId : Option String
  nextBillingTime : Option Nat
  lastPaymentTime : Option Nat
  expiresAt : Option Nat
  lastValidatedAt : Nat
  deriving Repr, DecidableEq

/-- A Firestore collection: key → document. -/
def Coll (α : Type) := String → Option α

/-- `ref.set(doc, {merge:true})` where the literal lists every modelled
field: replacement at the key. -/
def setDoc {α : Type} (c : Coll α) (key : String) (v : α) : Coll α :=
  fun k => if k = key then some v else c k

/-- The three collections the reconciliation core touches. -/
structure Store where
  subscriptionsById : Coll SubRecord
  userSubscriptions : Coll UserSubDoc
  users : Coll UserDoc

/-- The empty store. -/
def emptyStore : Store :=
  { subscriptionsById := fun _ => none
    userSubscriptions := fun _ => none
    users := fun _ => none }

/-- The value `upsertSubscriptionInFirestore` returns (server.js:191-198). -/
structure SubUpsertResult where
  email : Option String
  subscriptionId : String
  status : String
  planId : Option String
  nextBillingTime : Option Nat
  lastPaymentTime : Option Nat
  deriving Repr, DecidableEq

/-- `upsertSubscriptionInFirestore({subscription, email, lastWebhookEvent})`
(server.js:140-199): reads the previous `subscriptionsById` document,
resolves `finalEmail = email || prevData.email || null`, writes the merged
subscription record, writes the `userSubscriptions` index when `finalEmail`
is truthy, and returns the summary. -/
def upsertSubscriptionInFirestore (subscription : Subscription)
    (email lastWebhookEvent : Option String) (st : Store) :
    SubUpsertResult × Store :=
  let subscriptionId := subscription.id
  let status := subscription.status
  let planId := subscription.plan_id
  let startTime := subscription.start_time
  let nextBillingTime := subscription.next_billing_time
  let lastPaymentTime := subscription.last_payment_time
  let prevData := st.subscriptionsById subscriptionId
  let finalEmail := jsOrS email (prevData.bind (·.email))
  let newRec : SubRecord :=
    { subscriptionId := subscriptionId
      email := finalEmail
      status := status
      planId := planId
      startTime := jsOrT startTime (prevData.bind (·.startTime))
      nextBillingTime := nextBillingTime
      lastPaymentTime := lastPaymentTime
      lastWebhookEvent :=
        jsOrS lastWebhookEvent (prevData.bind (·.lastWebhookEvent)) }
  let st1 : Store :=
    { st with
      subscriptionsById := setDoc st.subscriptionsById subscriptionId newRec }
  let st2 : Store :=
    { st1 with
      userSubscriptions :=
        if sTruthy finalEmail then
          let key := jsToLower (jsStr finalEmail)
          setDoc st1.userSubscriptions key
            { email := key
              userId := key
              subscriptionId := subscriptionId
              status := status
              planId := planId
              startTime := startTime
              nextBillingTime := nextBillingTime
              lastPaymentTime := lastPaymentTime
              lastWebhookEvent := jsOrS lastWebhookEvent none }
        else st1.userSubscriptions }
  ({ email := finalEmail
     subscriptionId := subscriptionId
     status := status
     planId := planId
     nextBillingTime := nextBillingTime
     lastPaymentTime := lastPaymentTime }, st2)

/-- The argument object of `upsertUserEntitlement` (server.js:204-215). -/
structure EntitlementArgs where
  email : Option String
  activeForApp : Bool
  plan : Option String
  source : Option String
  subscriptionStatus : Option String
  subscriptionId : Option String
  planId : Option String
  nextBillingTime : Option Nat
  lastPaymentTime : Option Nat
  expiresAtIso : Option Nat
  deriving Repr, DecidableEq

/-- The `users`-document key for an email:
`String(email).trim().toLowerCase()` (server.js:218). -/
def entitlementKey (email : Option String) : String :=
  jsToLower (jsTrim (jsStr email))

/-- `upsertUserEntitlement(args)` (server.js:204-247): no-op when `email` is
falsy; otherwise computes
`expiresAt = expiresAtIso || (activeForApp ? computeExpiresAtIso(plan) : null)`,
applies the 2-day grace (`addGraceMs(expiresAt, 2)`), and writes the
entitlement document under the normalized email key. -/
def upsertUserEntitlement (a : EntitlementArgs) (now : Nat)
    (users : Coll UserDoc) : Coll UserDoc :=
  if sTruthy a.email then
    let emailLower := entitlementKey a.email
    let expiresAt0 :=
      jsOrT a.expiresAtIso
        (if a.activeForApp then computeExpiresAtIso a.plan now else none)
    let expiresAt := addGraceMs expiresAt0 2
    setDoc users emailLower
      { email := emailLower
        proActive := a.activeForApp
        plan := jsOrS a.plan none
        source := jsStr (jsOrS a.source (some "unknown"))
        subscriptionStatus := jsOrS a.subscriptionStatus none
        subscriptionId := jsOrS a.subscriptionId none
        planId := jsOrS a.planId none
        nextBillingTime := jsOrT a.nextBillingTime none
        lastPaymentTime := jsOrT a.lastPaymentTime none
        expiresAt := expiresAt
        lastValidatedAt := now }
  else users

/-- The static plan-id → plan table of server.js:397-402 (validation) and
server.js:465-470 (webhook): the yearly plan id maps to `yearly`, the
monthly one to `monthly`, anything else to `null`. -/
def planFromPlanId (planId : Option String) : Option String :=
  if planId = some "P-4B997107KS231694UNE3ADTY" then some "yearly"
  else if planId = some "P-7WS92829J39649832NE3ABTY" then some "monthly"
  else none

/-- Response of `POST /api/paypal/validate-subscription`, with the HTTP
status code and the JSON fields the handler sets (absent fields are
`none`). -/
structure ValidateResponse where
  status : Nat
  ok : Bool
  userId : Option String
  activeForApp : Option Bool
  subscriptionStatus : Option String
  subscriptionId : Option String
  planId : Option String
  deriving Repr, DecidableEq

/-- `POST /api/paypal/validate-subscription` (server.js:377-432).
`bodySubscriptionId`, `bodyEmail`, `bodyUserId` are the request-body
fields; `fetched` is the snapshot `getSubscriptionFromPayPal` returned for
the normalized subscription id (the provider call is external; a rejected
call short-circuits to the 500 branch and touches no store, which this
model leaves implicit by taking the successful fetch as input). -/
def validateSubscription (bodySubscriptionId bodyEmail bodyUserId : Option String)
    (fetched : Subscription) (now : Nat) (st : Store) :
    ValidateResponse × Store :=
  let subscriptionId := jsTrim (jsStr bodySubscriptionId)
  let email :=
    let e := jsToLower (jsTrim (jsStr (jsOrS bodyEmail bodyUserId)))
    if e == "" then none else some e
  if subscriptionId == "" then
    ({ status := 400, ok := false, userId := none, activeForApp := none
       subscriptionStatus := none, subscriptionId := none, planId := none }, st)
  else
    let (info, st1) := upsertSubscriptionInFirestore fetched email
      (some "VALIDATE_SUBSCRIPTION") st
    let activeForApp := isActiveForApp fetched.status
    let plan := planFromPlanId fetched.plan_id
    let st2 :=
      { st1 with
        users :=
          if sTruthy info.email then
            upsertUserEntitlement
              { email := info.email
                activeForApp := activeForApp
                plan := plan
                source := some "paypal"
                subscriptionStatus := some fetched.status
                subscriptionId := some fetched.id
                planId := fetched.plan_id
                nextBillingTime := info.nextBillingTime
                lastPaymentTime := info.lastPaymentTime
                expiresAtIso := none } now st1.users
          else st1.users }
    ({ status := 200, ok := true, userId := info.email
       activeForApp := some activeForApp
       subscriptionStatus := some fetched.status
       subscriptionId := some fetched.id
       planId := fetched.plan_id }, st2)

/-- Response of `POST /api/paypal/webhook`: HTTP status code and body
text. -/
structure WebhookResponse where
  status : Nat
  body : String
  deriving Repr, DecidableEq

/-- `POST /api/paypal/webhook` (server.js:438-493).  `verify` is the
outcome of `verifyWebhookSignature(req)`: `.ok b` models the promise
resolving to `b`, `.error e` models it rejecting (caught by the handler's
`catch`, which responds 500 before any store access).  `resourceId` is
`event.resource.id`; `fetched` is the snapshot the handler re-fetches from
PayPal for that id; `eventType` is `event.event_type`. -/
def paypalWebhook (verify : Except String Bool) (resourceId : Option String)
    (eventType : Option String) (fetched : Subscription) (now : Nat)
    (st : Store) : WebhookResponse × Store :=
  match verify with
  | .error _ => ({ status := 500, body := "ERROR" }, st)
  | .ok false => ({ status := 400, body := "INVALID_SIGNATURE" }, st)
  | .ok true =>
    if sTruthy resourceId then
      let (info, st1) := upsertSubscriptionInFirestore fetched none eventType st
      let activeForApp := isActiveForApp fetched.status
      let plan := planFromPlanId fetched.plan_id
      let st2 :=
        { st1 with
          users :=
            if sTruthy info.email then
              upsertUserEntitlement
                { email := info.email
                  activeForApp := activeForApp
                  plan := plan
                  source := some "paypal"
                  subscriptionStatus := some fetched.status
                  subscriptionId := some fetched.id
                  planId := fetched.plan_id
                  nextBillingTime := info.nextBillingTime
                  lastPaymentTime := info.lastPaymentTime
                  expiresAtIso := none } now st1.users
            else st1.users }
      ({ status := 200, body := "OK" }, st2)
    else
      ({ status := 200, body := "NO_SUBSCRIPTION_ID" }, st)

/-- Response of `POST /api/admin/activate-qr`: HTTP status code and the
JSON fields of the success body (absent on the error branches). -/
structure QrResponse where
  status : Nat
  ok : Bool
  email : Option String
  plan : Option String
  expiresAt : Option Nat
  deriving Repr, DecidableEq

/-- `POST /api/admin/activate-qr` (server.js:310-370).  `adminKey` is the
configured `ADMIN_KEY` (empty string when unset), `headerKey` the
`x-admin-key` request header.  The gate is
`!ADMIN_KEY || !key || key !== ADMIN_KEY`; then email/plan are normalized
(`trim().toLowerCase()`), validated, the plan expiry is computed, the
entitlement is written via `upsertUserEntitlement` (which adds the grace),
the legacy `userSubscriptions` index is written, and the response carries
the pre-grace `expiresAtIso`. -/
def activateQr (adminKey : String) (headerKey bodyEmail bodyPlan : Option String)
    (now : Nat) (st : Store) : QrResponse × Store :=
  if adminKey == "" || !sTruthy headerKey || !(headerKey == some adminKey) then
    ({ status := 401, ok := false, email := none, plan := none
       expiresAt := none }, st)
  else
    let email := jsToLower (jsTrim (jsStr bodyEmail))
    let plan := jsToLower (jsTrim (jsStr bodyPlan))
    if email == "" || plan == "" then
      ({ status := 400, ok := false, email := none, plan := none
         expiresAt := none }, st)
    else if plan != "monthly" && plan != "yearly" then
      ({ status := 400, ok := false, email := none, plan := none
         expiresAt := none }, st)
    else
      let expiresAtIso :=
        if plan == "yearly" then daysFromNowToIso now 365
        else daysFromNowToIso now 30
      let users1 := upsertUserEntitlement
        { email := some email
          activeForApp := true
          plan := some plan
          source := some "qr"
          subscriptionStatus := some "ACTIVE"
          subscriptionId := none
          planId := none
          nextBillingTime := none
          lastPaymentTime := none
          expiresAtIso := some expiresAtIso } now st.users
      let userSubs1 := setDoc st.userSubscriptions email
        { email := email
          userId := email
          subscriptionId := "MANUAL_QR_" ++ toString now
          status := "ACTIVE"
          planId := some (if plan == "yearly" then "MANUAL_YEARLY" else "MANUAL_MONTHLY")
          startTime := some now
          nextBillingTime := none
          lastPaymentTime := some now
          lastWebhookEvent := some "MANUAL_QR_ACTIVATION" }
      ({ status := 200, ok := true, email := some email, plan := some plan
         expiresAt := some expiresAtIso },
       { st with users := users1, userSubscriptions := userSubs1 })

/-- Response of the two status endpoints
(`GET /api/subscription/status/:userId`, `GET /api/app/user-status`):
HTTP status code and the JSON fields (absent fields are `none`). -/
structure StatusResponse where
  status : Nat
  ok : Bool
  userId : Option String
  activeForApp : Option Bool
  subscriptionStatus : Option String
  subscriptionId : Option String
  planId : Option String
  nextBillingTime : Option Nat
  lastPaymentTime : Option Nat
  deriving Repr, DecidableEq

/-- The shared body of the two status endpoints after key normalization
(server.js:503-521 and server.js:535-553): read `userSubscriptions`; if
absent respond `{activeForApp:false, subscriptionStatus:"NONE"}`, else
derive `activeForApp` from the stored status.  Neither branch writes to
any collection. -/
def statusLookup (userId : String) (st : Store) : StatusResponse × Store :=
  match st.userSubscriptions userId with
  | none =>
    ({ status := 200, ok := true, userId := some userId
       activeForApp := some false, subscriptionStatus := some "NONE"
       subscriptionId := none, planId := none
       nextBillingTime := none, lastPaymentTime := none }, st)
  | some data =>
    ({ status := 200, ok := true, userId := some userId
       activeForApp := some (isActiveForApp data.status)
       subscriptionStatus := some data.status
       subscriptionId := jsOrS (some data.subscriptionId) none
       planId := jsOrS data.planId none
       nextBillingTime := jsOrT data.nextBillingTime none
       lastPaymentTime := jsOrT data.lastPaymentTime none }, st)

/-- `GET /api/subscription/status/:userId` (server.js:500-526): the path
parameter is URI-decoded (external), trimmed and lowercased, then looked
up. -/
def subscriptionStatusEndpoint (userIdParam : String) (st : Store) :
    StatusResponse × Store :=
  statusLookup (jsToLower (jsTrim userIdParam)) st

/-- `GET /api/app/user-status?userId=...` (server.js:529-558): missing /
empty `userId` is rejected with 400; otherwise the trimmed, lowercased key
is looked up. -/
def userStatusEndpoint (userIdQuery : Option String) (st : Store) :
    StatusResponse × Store :=
  let raw := jsTrim (jsStr userIdQuery)
  if raw == "" then
    ({ status := 400, ok := false, userId := none, activeForApp := none
       subscriptionStatus := none, subscriptionId := none, planId := none
       nextBillingTime := none, lastPaymentTime := none }, st)
  else
    statusLookup (jsToLower raw) st

/-- `sTruthy none` computes to `false` (JS: `null` is falsy). -/
theorem sTruthy_none_eq : sTruthy none = false := rfl

/-- `String(null || "")` is the empty string. -/
theorem jsStr_none_eq : jsStr none = "" := rfl

/-- `String(s)` on a present string is that string. -/
theorem jsStr_some_eq (s : String) : jsStr (some s) = s := rfl

/-- Trimming the empty string yields the empty string. -/
theorem jsTrim_empty_eq : jsTrim "" = "" := rfl

/-- Lowercasing the empty string yields the empty string. -/
theorem jsToLower_empty_eq : jsToLower "" = "" := rfl

/-- The snapshot-determined entitlement fields the idempotence claim
compares: `proActive`, `plan`, `subscriptionStatus`. -/
def entitlementCore (d : UserDoc) : Bool × Option String × Option String :=
  (d.proActive, d.plan, d.subscriptionStatus)

/-! ## Concrete sample data used by witnesses and counterexamples -/

/-- A snapshot a CANCELLED-subscription fetch returns. -/
def sampleCancelledSub : Subscription :=
  { id := "I-EXAMPLE1", status := "CANCELLED"
    plan_id := some "P-7WS92829J39649832NE3ABTY"
    start_time := none, next_billing_time := none, last_payment_time := none }

/-- A previously stored `subscriptionsById` record binding an email. -/
def samplePrevRecord : SubRecord :=
  { subscriptionId := "I-EXAMPLE1", email := some "a@x.com", status := "APPROVED"
    planId := some "P-7WS92829J39649832NE3ABTY", startTime := some 1000
    nextBillingTime := some 1700000000000, lastPaymentTime := some 1690000000000
    lastWebhookEvent := some "BILLING.SUBSCRIPTION.ACTIVATED" }

/-- A store holding only `samplePrevRecord`. -/
def sampleStore : Store :=
  { emptyStore with
    subscriptionsById :=
      setDoc emptyStore.subscriptionsById "I-EXAMPLE1" samplePrevRecord }

/-- An ACTIVE snapshot for the same subscription carrying only null optional
fields (the shape of the spec's merge-monotonicity scenario
`{email: null, status: "ACTIVE"}`). -/
def sampleActiveNullsSub : Subscription :=
  { id := "I-EXAMPLE1", status := "ACTIVE"
    plan_id := some "P-7WS92829J39649832NE3ABTY"
    start_time := none, next_billing_time := none, last_payment_time := none }

/-! ## Claims -/

/-- **C1.** For every reconciliation of a subscription snapshot, the derived
`activeForApp` (`ACTIVE_STATUSES.includes(status)`, used at server.js:394
and server.js:463) is `true` exactly for the statuses `ACTIVE`,
`APPROVAL_PENDING`, `APPROVED`, and `false` for every other status. -/
theorem activeForApp_iff_active_status (s : String) :
    isActiveForApp s = true ↔
      s = "ACTIVE" ∨ s = "APPROVAL_PENDING" ∨ s = "APPROVED" := by
  simp [isActiveForApp, ACTIVE_STATUSES, List.contains, List.elem_iff]

/-- **C2 counterexample.** The claim says a webhook whose signature
verification *fails with an error* is answered with a client-error status;
at this concrete delivery the verification promise rejects and the handler
responds 500, which is not a client-error (4xx) status. -/
theorem webhook_verify_error_not_client_error :
    (paypalWebhook (Except.error "verify failed") (some "I-EXAMPLE1")
        (some "BILLING.SUBSCRIPTION.CANCELLED") sampleCancelledSub 0
        emptyStore).1.status = 500 ∧
      ¬(400 ≤ (paypalWebhook (Except.error "verify failed") (some "I-EXAMPLE1")
          (some "BILLING.SUBSCRIPTION.CANCELLED") sampleCancelledSub 0
          emptyStore).1.status ∧
        (paypalWebhook (Except.error "verify failed") (some "I-EXAMPLE1")
          (some "BILLING.SUBSCRIPTION.CANCELLED") sampleCancelledSub 0
          emptyStore).1.status < 500) := by
  constructor
  · rfl
  · decide

/-- **C2 (amended).** A webhook delivery whose signature verification
returns `false` is answered with the client-error status 400
(`INVALID_SIGNATURE`) and no store is touched; one whose verification
*fails with an error* is answered with the server-error status 500
(`ERROR`) and likewise no store is touched.  In both cases no subscription
merge and no entitlement upsert occur (the store is returned unchanged). -/
theorem webhook_rejection_no_store_write (resourceId eventType : Option String)
    (fetched : Subscription) (now : Nat) (st : Store) :
    ((paypalWebhook (Except.ok false) resourceId eventType fetched now st).1
        = { status := 400, body := "INVALID_SIGNATURE" } ∧
      (paypalWebhook (Except.ok false) resourceId eventType fetched now st).2 = st) ∧
    ∀ e : String,
      (paypalWebhook (Except.error e) resourceId eventType fetched now st).1
        = { status := 500, body := "ERROR" } ∧
      (paypalWebhook (Except.error e) resourceId eventType fetched now st).2 = st :=
  ⟨⟨rfl, rfl⟩, fun _ => ⟨rfl, rfl⟩⟩

/-- **C3 counterexample.** The claim says every field retains its previously
stored value when the incoming value is null; but merging a snapshot whose
`billing_info.next_billing_time` is null over a record that stored
`nextBillingTime = 1700000000000` leaves `nextBillingTime = null`: the
stored value was overwritten by the null, not retained. -/
theorem mergeUpsert_null_overwrites_nextBillingTime :
    (sampleStore.subscriptionsById "I-EXAMPLE1").map (·.nextBillingTime)
        = some (some 1700000000000) ∧
      sampleActiveNullsSub.next_billing_time = none ∧
      ((upsertSubscriptionInFirestore sampleActiveNullsSub none none
          sampleStore).2.subscriptionsById "I-EXAMPLE1").map (·.nextBillingTime)
        = some none := by
  refine ⟨rfl, rfl, rfl⟩

/-- **C3 (amended).** In `upsertSubscriptionInFirestore`'s merge, only
`email`, `startTime` and `lastWebhookEvent` retain the previously stored
value when the incoming one is null/absent; `status`, `planId`,
`nextBillingTime` and `lastPaymentTime` always take the incoming value,
even when it is null.  In particular the email invariant holds: once
`email` is bound for a subscription id, an update with a null email leaves
the stored email unchanged while still overwriting `status`. -/
theorem mergeUpsert_field_semantics (sub : Subscription) (lwe : Option String)
    (prev : SubRecord) (st : Store)
    (hprev : st.subscriptionsById sub.id = some prev)
    (hemail : sTruthy prev.email = true) :
    ((upsertSubscriptionInFirestore sub none lwe st).2.subscriptionsById
        sub.id).map (·.email) = some prev.email ∧
    ((upsertSubscriptionInFirestore sub none lwe st).2.subscriptionsById
        sub.id).map (·.status) = some sub.status ∧
    ((upsertSubscriptionInFirestore sub none lwe st).2.subscriptionsById
        sub.id).map (·.planId) = some sub.plan_id ∧
    ((upsertSubscriptionInFirestore sub none lwe st).2.subscriptionsById
        sub.id).map (·.nextBillingTime) = some sub.next_billing_time ∧
    ((upsertSubscriptionInFirestore sub none lwe st).2.subscriptionsById
        sub.id).map (·.lastPaymentTime) = some sub.last_payment_time ∧
    (sub.start_time = none →
      ((upsertSubscriptionInFirestore sub none lwe st).2.subscriptionsById
        sub.id).map (·.startTime) = some prev.startTime) ∧
    (sTruthy lwe = false → sTruthy prev.lastWebhookEvent = true →
      ((upsertSubscriptionInFirestore sub none lwe st).2.subscriptionsById
        sub.id).map (·.lastWebhookEvent) = some prev.lastWebhookEvent) := by
  simp [upsertSubscriptionInFirestore, setDoc, hprev, jsOrS, sTruthy, hemail, jsOrT]
  simp [sTruthy] at hemail
  refine ⟨?_, ?_, ?_⟩
  · intro hfalse
    rw [hfalse] at hemail
    exact absurd hemail (by decide)
  · intro h0
    simp [h0]
  · intro h1 h2
    simp [h1, h2]

/-- **C3 witness.** The spec's monotonicity scenario: merging
`{email: null, status: "ACTIVE"}` after a record stored
`{email: "a@x.com", status: "APPROVED"}` retains `email = "a@x.com"` and
overwrites `status` with `"ACTIVE"`. -/
theorem mergeUpsert_field_semantics_witness :
    (sampleStore.subscriptionsById sampleActiveNullsSub.id
        = some samplePrevRecord ∧
      sTruthy samplePrevRecord.email = true) ∧
    (((upsertSubscriptionInFirestore sampleActiveNullsSub none none
        sampleStore).2.subscriptionsById sampleActiveNullsSub.id).map (·.email)
        = some samplePrevRecord.email ∧
      ((upsertSubscriptionInFirestore sampleActiveNullsSub none none
        sampleStore).2.subscriptionsById sampleActiveNullsSub.id).map (·.status)
        = some sampleActiveNullsSub.status ∧
      ((upsertSubscriptionInFirestore sampleActiveNullsSub none none
        sampleStore).2.subscriptionsById sampleActiveNullsSub.id).map (·.planId)
        = some sampleActiveNullsSub.plan_id ∧
      ((upsertSubscriptionInFirestore sampleActiveNullsSub none none
        sampleStore).2.subscriptionsById
        sampleActiveNullsSub.id).map (·.nextBillingTime)
        = some sampleActiveNullsSub.next_billing_time ∧
      ((upsertSubscriptionInFirestore sampleActiveNullsSub none none
        sampleStore).2.subscriptionsById
        sampleActiveNullsSub.id).map (·.lastPaymentTime)
        = some sampleActiveNullsSub.last_payment_time ∧
      (sampleActiveNullsSub.start_time = none →
        ((upsertSubscriptionInFirestore sampleActiveNullsSub none none
          sampleStore).2.subscriptionsById
          sampleActiveNullsSub.id).map (·.startTime)
          = some samplePrevRecord.startTime) ∧
      (sTruthy none = false → sTruthy samplePrevRecord.lastWebhookEvent = true →
        ((upsertSubscriptionInFirestore sampleActiveNullsSub none none
          sampleStore).2.subscriptionsById
          sampleActiveNullsSub.id).map (·.lastWebhookEvent)
          = some samplePrevRecord.lastWebhookEvent)) :=
  ⟨⟨by decide, by decide⟩,
    mergeUpsert_field_semantics sampleActiveNullsSub none samplePrevRecord
      sampleStore (by decide) (by decide)⟩

/-- A previously granted entitlement (a manual QR grant with a cached
expiry), used to show revocation overrides it. -/
def sampleGrantDoc : UserDoc :=
  { email := "a@x.com", proActive := true, plan := some "monthly"
    source := "qr", subscriptionStatus := some "ACTIVE"
    subscriptionId := none, planId := none
    nextBillingTime := none, lastPaymentTime := none
    expiresAt := some 1702764800000, lastValidatedAt := 0 }

/-- `sampleStore` extended with the manual grant for `a@x.com`. -/
def sampleGrantStore : Store :=
  { sampleStore with users := setDoc sampleStore.users "a@x.com" sampleGrantDoc }

/-- Entitlement arguments as the validation/webhook reconciliation builds
them for an ACTIVE monthly subscription bound to `u@x.com` (no explicit
expiry). -/
def sampleActiveArgs : EntitlementArgs :=
  { email := some "u@x.com", activeForApp := true, plan := some "monthly"
    source := some "paypal", subscriptionStatus := some "ACTIVE"
    subscriptionId := some "I-EXAMPLE1"
    planId := some "P-7WS92829J39649832NE3ABTY"
    nextBillingTime := none, lastPaymentTime := none, expiresAtIso := none }

/-- Entitlement arguments as a reconciliation builds them for a CANCELLED
snapshot bound to `a@x.com` (no explicit expiry). -/
def sampleCancelledArgs : EntitlementArgs :=
  { email := some "a@x.com", activeForApp := false, plan := none
    source := some "paypal", subscriptionStatus := some "CANCELLED"
    subscriptionId := some "I-EXAMPLE1"
    planId := some "P-7WS92829J39649832NE3ABTY"
    nextBillingTime := none, lastPaymentTime := none, expiresAtIso := none }

/-- **C4.** Every reconciliation whose derived `activeForApp` is false
writes a UserEntitlement with `proActive = false` and `expiresAt = null`,
regardless of any previously stored expiry: first at the shared
engine level (`upsertUserEntitlement` with `activeForApp = false` and no
explicit expiry — neither reconciliation channel supplies one — clears the
expiry for any prior `users` contents), then instantiated through both
channels: a verified webhook and a validation call, each fetching an
inactive status for a subscription with a bound email. -/
theorem reconcile_inactive_clears_expiry (a : EntitlementArgs)
    (bodySubscriptionId resourceId eventType : Option String)
    (fetched : Subscription) (now : Nat) (users : Coll UserDoc) (st : Store)
    (prev : SubRecord) (e : String) :
    (sTruthy a.email = true → a.activeForApp = false → a.expiresAtIso = none →
      ((upsertUserEntitlement a now users) (entitlementKey a.email)).map
        (fun d => (d.proActive, d.expiresAt)) = some (false, none)) ∧
    (sTruthy resourceId = true →
      st.subscriptionsById fetched.id = some prev →
      prev.email = some e → sTruthy (some e) = true →
      isActiveForApp fetched.status = false →
      ((paypalWebhook (Except.ok true) resourceId eventType fetched now
          st).2.users (entitlementKey (some e))).map
          (fun d => (d.proActive, d.expiresAt)) = some (false, none)) ∧
    (jsTrim (jsStr bodySubscriptionId) ≠ "" →
      st.subscriptionsById fetched.id = some prev →
      prev.email = some e → sTruthy (some e) = true →
      isActiveForApp fetched.status = false →
      ((validateSubscription bodySubscriptionId none none fetched now
          st).2.users (entitlementKey (some e))).map
          (fun d => (d.proActive, d.expiresAt)) = some (false, none)) := by
  refine ⟨?_, ?_, ?_⟩
  · intro h1 h2 h3
    simp [upsertUserEntitlement, h1, h2, h3, setDoc, jsOrT, addGraceMs]
  · intro hres hprev hbound he hinactive
    simp [paypalWebhook, hres, upsertSubscriptionInFirestore, hprev, hbound,
      jsOrS, sTruthy_none_eq, he, upsertUserEntitlement, hinactive, setDoc,
      jsOrT, addGraceMs]
  · intro hid hprev hbound he hinactive
    simp [validateSubscription, hid, upsertSubscriptionInFirestore, hprev,
      hbound, jsOrS, sTruthy_none_eq, he, upsertUserEntitlement, hinactive,
      setDoc, jsOrT, addGraceMs, jsStr_none_eq, jsTrim_empty_eq,
      jsToLower_empty_eq]

/-- **C4 witness.** The engine level writing the CANCELLED snapshot of
`a@x.com`, and the two channels — a verified webhook and a validation call
reporting `CANCELLED` for the subscription bound to `a@x.com`, over a
store still holding that email's manual grant with a cached expiry — all
leave `proActive = false` and `expiresAt = null`. -/
theorem reconcile_inactive_clears_expiry_witness :
    (sTruthy sampleCancelledArgs.email = true ∧
      sampleCancelledArgs.activeForApp = false ∧
      sampleCancelledArgs.expiresAtIso = none ∧
      sTruthy (some "I-EXAMPLE1") = true ∧
      sampleGrantStore.subscriptionsById sampleCancelledSub.id
        = some samplePrevRecord ∧
      samplePrevRecord.email = some "a@x.com" ∧
      sTruthy (some "a@x.com") = true ∧
      isActiveForApp sampleCancelledSub.status = false ∧
      jsTrim (jsStr (some "I-EXAMPLE1")) ≠ "") ∧
    ((upsertUserEntitlement sampleCancelledArgs 50 emptyStore.users)
        (entitlementKey sampleCancelledArgs.email)).map
        (fun d => (d.proActive, d.expiresAt)) = some (false, none) ∧
    ((paypalWebhook (Except.ok true) (some "I-EXAMPLE1")
        (some "BILLING.SUBSCRIPTION.CANCELLED") sampleCancelledSub 50
        sampleGrantStore).2.users (entitlementKey (some "a@x.com"))).map
        (fun d => (d.proActive, d.expiresAt)) = some (false, none) ∧
    ((validateSubscription (some "I-EXAMPLE1") none none sampleCancelledSub 50
        sampleGrantStore).2.users (entitlementKey (some "a@x.com"))).map
        (fun d => (d.proActive, d.expiresAt)) = some (false, none) :=
  ⟨⟨by decide, by decide, by decide, by decide, by decide, by decide,
      by decide, by decide, by decide⟩,
    (reconcile_inactive_clears_expiry sampleCancelledArgs (some "I-EXAMPLE1")
        (some "I-EXAMPLE1") (some "BILLING.SUBSCRIPTION.CANCELLED")
        sampleCancelledSub 50 emptyStore.users sampleGrantStore
        samplePrevRecord "a@x.com").1 (by decide) (by decide) (by decide),
    (reconcile_inactive_clears_expiry sampleCancelledArgs (some "I-EXAMPLE1")
        (some "I-EXAMPLE1") (some "BILLING.SUBSCRIPTION.CANCELLED")
        sampleCancelledSub 50 emptyStore.users sampleGrantStore
        samplePrevRecord "a@x.com").2.1 (by decide) (by decide) (by decide)
      (by decide) (by decide),
    (reconcile_inactive_clears_expiry sampleCancelledArgs (some "I-EXAMPLE1")
        (some "I-EXAMPLE1") (some "BILLING.SUBSCRIPTION.CANCELLED")
        sampleCancelledSub 50 emptyStore.users sampleGrantStore
        samplePrevRecord "a@x.com").2.2 (by decide) (by decide) (by decide)
      (by decide) (by decide)⟩

/-- **C5 counterexample.** The claim says two runs of `reconcile` with an
identical snapshot differ only in `updatedAt`/`lastValidatedAt`; but the
entitlement write recomputes `expiresAt` from the run's own clock, so
re-running the same ACTIVE monthly snapshot one day later stores
`expiresAt = 2851200000` instead of `2764800000` — `expiresAt` differs
too. -/
theorem reconcile_expiry_advances :
    ((upsertUserEntitlement sampleActiveArgs 0 emptyStore.users)
        "u@x.com").map (·.expiresAt) = some (some 2764800000) ∧
      ((upsertUserEntitlement sampleActiveArgs 86400000
          (upsertUserEntitlement sampleActiveArgs 0 emptyStore.users))
        "u@x.com").map (·.expiresAt) = some (some 2851200000) ∧
      (2764800000 : Nat) ≠ 2851200000 :=
  ⟨by decide, by decide, by decide⟩

/-- **C5 (amended).** Re-running the entitlement write with an identical
snapshot yields identical `proActive`, `plan` and `subscriptionStatus`;
the two runs are entirely identical when they execute at the same instant;
and `expiresAt` also agrees whenever the snapshot is inactive or an
explicit expiry was supplied — it is only the active-case expiry
recomputed from the run's own `now` (together with `lastValidatedAt` and
the server `updatedAt`) that advances between runs. -/
theorem reconcile_idempotent_fields (a : EntitlementArgs) (now1 now2 : Nat)
    (users : Coll UserDoc) (he : sTruthy a.email = true) :
    (((upsertUserEntitlement a now2 (upsertUserEntitlement a now1 users))
        (entitlementKey a.email)).map entitlementCore
      = ((upsertUserEntitlement a now1 users)
        (entitlementKey a.email)).map entitlementCore) ∧
    (now1 = now2 →
      (upsertUserEntitlement a now2 (upsertUserEntitlement a now1 users))
          (entitlementKey a.email)
        = (upsertUserEntitlement a now1 users) (entitlementKey a.email)) ∧
    (a.activeForApp = false ∨ a.expiresAtIso ≠ none →
      ((upsertUserEntitlement a now2 (upsertUserEntitlement a now1 users))
        (entitlementKey a.email)).map (·.expiresAt)
      = ((upsertUserEntitlement a now1 users)
        (entitlementKey a.email)).map (·.expiresAt)) := by
  refine ⟨?_, ?_, ?_⟩
  · simp [upsertUserEntitlement, he, setDoc, entitlementCore]
  · intro h; subst h; simp [upsertUserEntitlement, he, setDoc]
  · intro h
    rcases h with h | h
    · simp [upsertUserEntitlement, he, setDoc, h]
    · rcases hx : a.expiresAtIso with _ | v
      · exact absurd hx h
      · simp [upsertUserEntitlement, he, setDoc, hx, jsOrT]

/-- **C5 witness.** The amended statement instantiated for the ACTIVE
monthly snapshot of `u@x.com`, run at `now = 0` and again at
`now = 86400000`. -/
theorem reconcile_idempotent_fields_witness :
    sTruthy sampleActiveArgs.email = true ∧
    ((((upsertUserEntitlement sampleActiveArgs 86400000
        (upsertUserEntitlement sampleActiveArgs 0 emptyStore.users))
        (entitlementKey sampleActiveArgs.email)).map entitlementCore
      = ((upsertUserEntitlement sampleActiveArgs 0 emptyStore.users)
        (entitlementKey sampleActiveArgs.email)).map entitlementCore) ∧
    ((0 : Nat) = 86400000 →
      (upsertUserEntitlement sampleActiveArgs 86400000
        (upsertUserEntitlement sampleActiveArgs 0 emptyStore.users))
          (entitlementKey sampleActiveArgs.email)
        = (upsertUserEntitlement sampleActiveArgs 0 emptyStore.users)
          (entitlementKey sampleActiveArgs.email)) ∧
    (sampleActiveArgs.activeForApp = false ∨ sampleActiveArgs.expiresAtIso ≠ none →
      ((upsertUserEntitlement sampleActiveArgs 86400000
        (upsertUserEntitlement sampleActiveArgs 0 emptyStore.users))
        (entitlementKey sampleActiveArgs.email)).map (·.expiresAt)
      = ((upsertUserEntitlement sampleActiveArgs 0 emptyStore.users)
        (entitlementKey sampleActiveArgs.email)).map (·.expiresAt))) :=
  ⟨by decide,
    reconcile_idempotent_fields sampleActiveArgs 0 86400000 emptyStore.users
      (by decide)⟩

/-- An ACTIVE snapshot for a subscription id with no prior record. -/
def sampleFreshSub : Subscription :=
  { id := "sub_123", status := "ACTIVE"
    plan_id := some "P-7WS92829J39649832NE3ABTY"
    start_time := none, next_billing_time := none, last_payment_time := none }

/-- **C6.** When the entitlement write is reached with
`activeForApp = true` and no explicit expiry, the stored `expiresAt` is
now + 30 days for a monthly plan and now + 365 days for a yearly plan,
each extended by the fixed 2-day grace; for any other (unknown/null) plan
it is left null.  The grace addition can only lengthen the offline
window. -/
theorem active_entitlement_expiry (a : EntitlementArgs) (now : Nat)
    (users : Coll UserDoc)
    (he : sTruthy a.email = true)
    (hact : a.activeForApp = true)
    (hnoexp : a.expiresAtIso = none) :
    (jsToLower (jsStr a.plan) = "monthly" →
      ((upsertUserEntitlement a now users) (entitlementKey a.email)).map
          (·.expiresAt)
        = some (some (now + daysToMs 30 + daysToMs 2))) ∧
    (jsToLower (jsStr a.plan) = "yearly" →
      ((upsertUserEntitlement a now users) (entitlementKey a.email)).map
          (·.expiresAt)
        = some (some (now + daysToMs 365 + daysToMs 2))) ∧
    (jsToLower (jsStr a.plan) ≠ "monthly" →
      jsToLower (jsStr a.plan) ≠ "yearly" →
      ((upsertUserEntitlement a now users) (entitlementKey a.email)).map
          (·.expiresAt)
        = some none) ∧
    (∀ t : Nat, addGraceMs (some t) 2 = some (t + daysToMs 2) ∧
      t ≤ t + daysToMs 2) := by
  refine ⟨?_, ?_, ?_, ?_⟩
  · intro hp
    simp [upsertUserEntitlement, he, hact, hnoexp, computeExpiresAtIso, hp,
      setDoc, jsOrT, addGraceMs, daysFromNowToIso]
  · intro hp
    simp [upsertUserEntitlement, he, hact, hnoexp, computeExpiresAtIso, hp,
      setDoc, jsOrT, addGraceMs, daysFromNowToIso]
  · intro hp hy
    simp [upsertUserEntitlement, he, hact, hnoexp, computeExpiresAtIso, hp, hy,
      setDoc, jsOrT, addGraceMs, daysFromNowToIso]
  · intro t
    exact ⟨rfl, Nat.le_add_right t _⟩

/-- **C6 witness.** The ACTIVE monthly snapshot of `u@x.com` reconciled at
`now = 0` with no explicit expiry. -/
theorem active_entitlement_expiry_witness :
    (sTruthy sampleActiveArgs.email = true ∧
      sampleActiveArgs.activeForApp = true ∧
      sampleActiveArgs.expiresAtIso = none) ∧
    ((jsToLower (jsStr sampleActiveArgs.plan) = "monthly" →
      ((upsertUserEntitlement sampleActiveArgs 0 emptyStore.users)
          (entitlementKey sampleActiveArgs.email)).map (·.expiresAt)
        = some (some (0 + daysToMs 30 + daysToMs 2))) ∧
    (jsToLower (jsStr sampleActiveArgs.plan) = "yearly" →
      ((upsertUserEntitlement sampleActiveArgs 0 emptyStore.users)
          (entitlementKey sampleActiveArgs.email)).map (·.expiresAt)
        = some (some (0 + daysToMs 365 + daysToMs 2))) ∧
    (jsToLower (jsStr sampleActiveArgs.plan) ≠ "monthly" →
      jsToLower (jsStr sampleActiveArgs.plan) ≠ "yearly" →
      ((upsertUserEntitlement sampleActiveArgs 0 emptyStore.users)
          (entitlementKey sampleActiveArgs.email)).map (·.expiresAt)
        = some none) ∧
    (∀ t : Nat, addGraceMs (some t) 2 = some (t + daysToMs 2) ∧
      t ≤ t + daysToMs 2)) :=
  ⟨⟨by decide, by decide, by decide⟩,
    active_entitlement_expiry sampleActiveArgs 0 emptyStore.users (by decide)
      (by decide) (by decide)⟩

/-- **C7.** A reconciliation with no supplied email and no email previously
bound for the subscription id completes successfully, still merges the
snapshot into the `subscriptionsById` history and derives `activeForApp`,
but writes nothing to the `users` entitlement collection (nor to the
`userSubscriptions` index) — on both channels: a validation call with a
non-empty subscription id (HTTP 200, `ok: true`, correctly derived
`activeForApp`, null `userId`), and a verified webhook delivery (HTTP 200
`OK` to stop provider redelivery). -/
theorem validate_unbound_email_no_entitlement
    (bodySubscriptionId resourceId eventType : Option String)
    (fetched : Subscription) (now : Nat) (st : Store)
    (hid : jsTrim (jsStr bodySubscriptionId) ≠ "")
    (hres : sTruthy resourceId = true)
    (hnobind : sTruthy ((st.subscriptionsById fetched.id).bind (·.email))
      = false) :
    ((validateSubscription bodySubscriptionId none none fetched now st).1.status
        = 200 ∧
      (validateSubscription bodySubscriptionId none none fetched now st).1.ok
        = true ∧
      (validateSubscription bodySubscriptionId none none fetched now
          st).1.activeForApp = some (isActiveForApp fetched.status) ∧
      (validateSubscription bodySubscriptionId none none fetched now
          st).1.userId = none ∧
      (validateSubscription bodySubscriptionId none none fetched now st).2.users
        = st.users ∧
      (validateSubscription bodySubscriptionId none none fetched now
          st).2.userSubscriptions = st.userSubscriptions ∧
      ((validateSubscription bodySubscriptionId none none fetched now
          st).2.subscriptionsById fetched.id).map
          (fun m => (m.subscriptionId, m.status))
        = some (fetched.id, fetched.status)) ∧
    ((paypalWebhook (Except.ok true) resourceId eventType fetched now st).1
        = { status := 200, body := "OK" } ∧
      (paypalWebhook (Except.ok true) resourceId eventType fetched now
          st).2.users = st.users ∧
      (paypalWebhook (Except.ok true) resourceId eventType fetched now
          st).2.userSubscriptions = st.userSubscriptions ∧
      ((paypalWebhook (Except.ok true) resourceId eventType fetched now
          st).2.subscriptionsById fetched.id).map
          (fun m => (m.subscriptionId, m.status))
        = some (fetched.id, fetched.status)) := by
  constructor
  · simp [validateSubscription, hid, upsertSubscriptionInFirestore, jsOrS,
      sTruthy_none_eq, hnobind, setDoc, jsStr_none_eq, jsTrim_empty_eq,
      jsToLower_empty_eq]
  · simp [paypalWebhook, hres, upsertSubscriptionInFirestore, jsOrS,
      sTruthy_none_eq, hnobind, setDoc]

/-- **C7 witness.** `ValidateSubscription("sub_123")` with no email on an
empty store, and a verified webhook for the same unbound subscription:
HTTP 200 on both, `activeForApp` derived from the ACTIVE snapshot, the
history record merged, no entitlement written. -/
theorem validate_unbound_email_no_entitlement_witness :
    (jsTrim (jsStr (some "sub_123")) ≠ "" ∧
      sTruthy (some "sub_123") = true ∧
      sTruthy ((emptyStore.subscriptionsById sampleFreshSub.id).bind (·.email))
        = false) ∧
    (((validateSubscription (some "sub_123") none none sampleFreshSub 0
        emptyStore).1.status = 200 ∧
      (validateSubscription (some "sub_123") none none sampleFreshSub 0
        emptyStore).1.ok = true ∧
      (validateSubscription (some "sub_123") none none sampleFreshSub 0
        emptyStore).1.activeForApp = some (isActiveForApp sampleFreshSub.status) ∧
      (validateSubscription (some "sub_123") none none sampleFreshSub 0
        emptyStore).1.userId = none ∧
      (validateSubscription (some "sub_123") none none sampleFreshSub 0
        emptyStore).2.users = emptyStore.users ∧
      (validateSubscription (some "sub_123") none none sampleFreshSub 0
        emptyStore).2.userSubscriptions = emptyStore.userSubscriptions ∧
      ((validateSubscription (some "sub_123") none none sampleFreshSub 0
        emptyStore).2.subscriptionsById sampleFreshSub.id).map
        (fun m => (m.subscriptionId, m.status))
      = some (sampleFreshSub.id, sampleFreshSub.status)) ∧
    ((paypalWebhook (Except.ok true) (some "sub_123")
        (some "BILLING.SUBSCRIPTION.UPDATED") sampleFreshSub 0 emptyStore).1
        = { status := 200, body := "OK" } ∧
      (paypalWebhook (Except.ok true) (some "sub_123")
        (some "BILLING.SUBSCRIPTION.UPDATED") sampleFreshSub 0
        emptyStore).2.users = emptyStore.users ∧
      (paypalWebhook (Except.ok true) (some "sub_123")
        (some "BILLING.SUBSCRIPTION.UPDATED") sampleFreshSub 0
        emptyStore).2.userSubscriptions = emptyStore.userSubscriptions ∧
      ((paypalWebhook (Except.ok true) (some "sub_123")
        (some "BILLING.SUBSCRIPTION.UPDATED") sampleFreshSub 0
        emptyStore).2.subscriptionsById sampleFreshSub.id).map
        (fun m => (m.subscriptionId, m.status))
      = some (sampleFreshSub.id, sampleFreshSub.status))) :=
  ⟨⟨by decide, by decide, by decide⟩,
    validate_unbound_email_no_entitlement (some "sub_123") (some "sub_123")
      (some "BILLING.SUBSCRIPTION.UPDATED") sampleFreshSub 0 emptyStore
      (by decide) (by decide) (by decide)⟩

/-- **C8.** Manual-override (`/api/admin/activate-qr`) behaviour: a
missing/empty configured admin key, a falsy supplied credential, or any
mismatch yields 401 with the store untouched; after the gate, a missing
email or plan, or a normalized plan outside `{monthly, yearly}`, yields
400 with the store untouched; on success the written entitlement has
`proActive = true`, `source = "qr"` and `subscriptionStatus = "ACTIVE"`. -/
theorem activateQr_gate_and_success (adminKey : String)
    (headerKey bodyEmail bodyPlan : Option String) (now : Nat) (st : Store) :
    ((adminKey = "" ∨ sTruthy headerKey = false ∨ headerKey ≠ some adminKey) →
      (activateQr adminKey headerKey bodyEmail bodyPlan now st).1.status = 401 ∧
      (activateQr adminKey headerKey bodyEmail bodyPlan now st).2 = st) ∧
    (adminKey ≠ "" → headerKey = some adminKey →
      ((jsToLower (jsTrim (jsStr bodyEmail)) = "" ∨
        jsToLower (jsTrim (jsStr bodyPlan)) = "" ∨
        (jsToLower (jsTrim (jsStr bodyPlan)) ≠ "monthly" ∧
          jsToLower (jsTrim (jsStr bodyPlan)) ≠ "yearly") →
        (activateQr adminKey headerKey bodyEmail bodyPlan now st).1.status = 400 ∧
        (activateQr adminKey headerKey bodyEmail bodyPlan now st).2 = st) ∧
      (jsToLower (jsTrim (jsStr bodyEmail)) ≠ "" →
        (jsToLower (jsTrim (jsStr bodyPlan)) = "monthly" ∨
          jsToLower (jsTrim (jsStr bodyPlan)) = "yearly") →
        (activateQr adminKey headerKey bodyEmail bodyPlan now st).1.status = 200 ∧
        ((activateQr adminKey headerKey bodyEmail bodyPlan now st).2.users
            (entitlementKey (some (jsToLower (jsTrim (jsStr bodyEmail)))))).map
            (fun d => (d.proActive, d.source, d.subscriptionStatus))
          = some (true, "qr", some "ACTIVE")))) := by
  constructor
  · intro h
    rcases h with h | h | h
    · simp [activateQr, h]
    · simp [activateQr, h]
    · simp [activateQr, beq_iff_eq, h]
  · intro hk hh
    subst hh
    constructor
    · intro h
      rcases h with h | h | h
      · simp [activateQr, sTruthy, beq_iff_eq, hk, h]
      · simp [activateQr, sTruthy, beq_iff_eq, hk, h]
      · simp [activateQr, sTruthy, beq_iff_eq, hk, h.1, h.2]
    · intro hemail hplan
      rcases hplan with hp | hp
      · simp [activateQr, sTruthy, beq_iff_eq, hk, hemail, hp,
          upsertUserEntitlement, entitlementKey, setDoc, jsOrS, jsStr_some_eq]
      · simp [activateQr, sTruthy, beq_iff_eq, hk, hemail, hp,
          upsertUserEntitlement, entitlementKey, setDoc, jsOrS, jsStr_some_eq]

/-- **C8 witness.** A correctly authenticated activation of
`" U@X.com "` with plan `"Monthly"` (normalized to `u@x.com` /
`monthly`) succeeds and writes `proActive = true`, `source = "qr"`,
`subscriptionStatus = "ACTIVE"`. -/
theorem activateQr_gate_and_success_witness :
    ("K" ≠ "" ∧ (some "K" : Option String) = some "K" ∧
      jsToLower (jsTrim (jsStr (some " U@X.com "))) ≠ "" ∧
      (jsToLower (jsTrim (jsStr (some "Monthly"))) = "monthly" ∨
        jsToLower (jsTrim (jsStr (some "Monthly"))) = "yearly")) ∧
    ((activateQr "K" (some "K") (some " U@X.com ") (some "Monthly") 100
        emptyStore).1.status = 200 ∧
      ((activateQr "K" (some "K") (some " U@X.com ") (some "Monthly") 100
          emptyStore).2.users
          (entitlementKey (some (jsToLower (jsTrim (jsStr (some " U@X.com "))))))).map
          (fun d => (d.proActive, d.source, d.subscriptionStatus))
        = some (true, "qr", some "ACTIVE")) :=
  ⟨⟨by decide, rfl, by decide, by decide⟩,
    ((activateQr_gate_and_success "K" (some "K") (some " U@X.com ")
        (some "Monthly") 100 emptyStore).2 (by decide) rfl).2
      (by decide) (by decide)⟩

/-- **C9 counterexample.** The claim says a status query on an identity
with no stored record *writes* a deterministic inactive entitlement; at
this concrete input (`a@x.com`, which has no `userSubscriptions` entry but
a stale ACTIVE entitlement) the handler returns the NONE shape yet the
store is returned unchanged — the stale `proActive = true` entitlement is
still there and nothing inactive was written. -/
theorem status_lookup_writes_nothing :
    (subscriptionStatusEndpoint "a@x.com" sampleGrantStore).1.activeForApp
        = some false ∧
    (subscriptionStatusEndpoint "a@x.com" sampleGrantStore).1.subscriptionStatus
        = some "NONE" ∧
    (subscriptionStatusEndpoint "a@x.com" sampleGrantStore).2
        = sampleGrantStore ∧
    ((subscriptionStatusEndpoint "a@x.com" sampleGrantStore).2.users
        "a@x.com").map (·.proActive) = some true :=
  ⟨by decide, by decide, rfl, by decide⟩

/-- **C9 (amended).** A status query on an email/userId with no stored
`userSubscriptions` record returns the deterministic shape
`{ok: true, activeForApp: false, subscriptionStatus: "NONE"}` with HTTP
200 (no throw) on both status endpoints, and performs **no** write to any
store: the read path is side-effect free, and a stale entitlement is left
as it was rather than being overwritten with an inactive one. -/
theorem status_unknown_deterministic_shape (userIdParam : String)
    (userIdQuery : Option String) (st : Store)
    (h1 : st.userSubscriptions (jsToLower (jsTrim userIdParam)) = none)
    (h2 : st.userSubscriptions (jsToLower (jsTrim (jsStr userIdQuery))) = none)
    (h3 : jsTrim (jsStr userIdQuery) ≠ "") :
    ((subscriptionStatusEndpoint userIdParam st).1.status = 200 ∧
      (subscriptionStatusEndpoint userIdParam st).1.ok = true ∧
      (subscriptionStatusEndpoint userIdParam st).1.activeForApp = some false ∧
      (subscriptionStatusEndpoint userIdParam st).1.subscriptionStatus
        = some "NONE" ∧
      (subscriptionStatusEndpoint userIdParam st).2 = st) ∧
    ((userStatusEndpoint userIdQuery st).1.status = 200 ∧
      (userStatusEndpoint userIdQuery st).1.ok = true ∧
      (userStatusEndpoint userIdQuery st).1.activeForApp = some false ∧
      (userStatusEndpoint userIdQuery st).1.subscriptionStatus = some "NONE" ∧
      (userStatusEndpoint userIdQuery st).2 = st) := by
  constructor
  · simp [subscriptionStatusEndpoint, statusLookup, h1]
  · simp [userStatusEndpoint, statusLookup, beq_iff_eq, h3, h2]

/-- **C9 witness.** Looking up the unknown identity `ghost@x.com` on the
empty store through both endpoints. -/
theorem status_unknown_deterministic_shape_witness :
    (emptyStore.userSubscriptions (jsToLower (jsTrim "Ghost@X.com")) = none ∧
      emptyStore.userSubscriptions
        (jsToLower (jsTrim (jsStr (some "ghost@x.com")))) = none ∧
      jsTrim (jsStr (some "ghost@x.com")) ≠ "") ∧
    (((subscriptionStatusEndpoint "Ghost@X.com" emptyStore).1.status = 200 ∧
      (subscriptionStatusEndpoint "Ghost@X.com" emptyStore).1.ok = true ∧
      (subscriptionStatusEndpoint "Ghost@X.com" emptyStore).1.activeForApp
        = some false ∧
      (subscriptionStatusEndpoint "Ghost@X.com" emptyStore).1.subscriptionStatus
        = some "NONE" ∧
      (subscriptionStatusEndpoint "Ghost@X.com" emptyStore).2 = emptyStore) ∧
    ((userStatusEndpoint (some "ghost@x.com") emptyStore).1.status = 200 ∧
      (userStatusEndpoint (some "ghost@x.com") emptyStore).1.ok = true ∧
      (userStatusEndpoint (some "ghost@x.com") emptyStore).1.activeForApp
        = some false ∧
      (userStatusEndpoint (some "ghost@x.com") emptyStore).1.subscriptionStatus
        = some "NONE" ∧
      (userStatusEndpoint (some "ghost@x.com") emptyStore).2 = emptyStore)) :=
  ⟨⟨rfl, rfl, by decide⟩,
    status_unknown_deterministic_shape "Ghost@X.com" (some "ghost@x.com")
      emptyStore rfl rfl (by decide)⟩

/-- **C10.** On a successful manual QR activation, the entitlement stored
in `users` carries the plan expiry *plus the 2-day grace*
(`upsertUserEntitlement` applies `addGraceMs(·, 2)` to the explicitly
supplied expiry), while the HTTP response's `expiresAt` is the plan
expiry without the grace — the stored instant is exactly 2 days
(`daysToMs 2` ms) later than the returned one. -/
theorem activateQr_stored_expiry_has_grace (adminKey : String)
    (headerKey bodyEmail bodyPlan : Option String) (now : Nat) (st : Store)
    (hk : adminKey ≠ "") (hh : headerKey = some adminKey)
    (hemail : jsToLower (jsTrim (jsStr bodyEmail)) ≠ "")
    (hplan : jsToLower (jsTrim (jsStr bodyPlan)) = "monthly" ∨
      jsToLower (jsTrim (jsStr bodyPlan)) = "yearly") :
    (activateQr adminKey headerKey bodyEmail bodyPlan now st).1.expiresAt
      = some (if jsToLower (jsTrim (jsStr bodyPlan)) = "yearly" then
          daysFromNowToIso now 365 else daysFromNowToIso now 30) ∧
    ((activateQr adminKey headerKey bodyEmail bodyPlan now st).2.users
        (entitlementKey (some (jsToLower (jsTrim (jsStr bodyEmail)))))).map
        (·.expiresAt)
      = some (some ((if jsToLower (jsTrim (jsStr bodyPlan)) = "yearly" then
          daysFromNowToIso now 365 else daysFromNowToIso now 30)
          + daysToMs 2)) := by
  subst hh
  rcases hplan with hp | hp
  · simp [activateQr, sTruthy, beq_iff_eq, hk, hemail, hp,
      upsertUserEntitlement, entitlementKey, setDoc, jsOrS, jsOrT,
      addGraceMs, jsStr_some_eq]
  · simp [activateQr, sTruthy, beq_iff_eq, hk, hemail, hp,
      upsertUserEntitlement, entitlementKey, setDoc, jsOrS, jsOrT,
      addGraceMs, jsStr_some_eq]

/-- **C10 witness.** Activating `u@x.com` monthly at `now = 100`: the
response reports expiry `100 + 30` days while the store holds
`100 + 30 + 2` days. -/
theorem activateQr_stored_expiry_has_grace_witness :
    ("K" ≠ "" ∧ jsToLower (jsTrim (jsStr (some "u@x.com"))) ≠ "" ∧
      (jsToLower (jsTrim (jsStr (some "monthly"))) = "monthly" ∨
        jsToLower (jsTrim (jsStr (some "monthly"))) = "yearly")) ∧
    ((activateQr "K" (some "K") (some "u@x.com") (some "monthly") 100
        emptyStore).1.expiresAt
      = some (if jsToLower (jsTrim (jsStr (some "monthly"))) = "yearly" then
          daysFromNowToIso 100 365 else daysFromNowToIso 100 30) ∧
    ((activateQr "K" (some "K") (some "u@x.com") (some "monthly") 100
        emptyStore).2.users
        (entitlementKey (some (jsToLower (jsTrim (jsStr (some "u@x.com"))))))).map
        (·.expiresAt)
      = some (some ((if jsToLower (jsTrim (jsStr (some "monthly"))) = "yearly"
          then daysFromNowToIso 100 365 else daysFromNowToIso 100 30)
          + daysToMs 2))) :=
  ⟨⟨by decide, by decide, by decide⟩,
    activateQr_stored_expiry_has_grace "K" (some "K") (some "u@x.com")
      (some "monthly") 100 emptyStore (by decide) rfl (by decide)
      (by decide)⟩

end VacunasEcPro
